import Mathlib

/-!
Shallow embedding of the design-evaluation core of the repository
(`backend/design_evaluator.py` and `config/scoring_weights.py`), together with
theorems settling the specification claims about it.

Modelling conventions:
* Python floats are modelled as rationals (`ℚ`); `round(x, 1)` is modelled as
  exact decimal rounding half-to-even at one decimal place (`round1`), which is
  what Python `round` computes on the decimal reading of its argument.
* Python strings are modelled as Lean `String`s; the string operations the
  source uses (`strip`, `startswith`, `endswith`, slicing, `lower`, substring
  membership) are implemented character-wise, matching the Python character
  (not byte) semantics.
* `json.loads` is an external library; the LLM pipeline is therefore
  parameterised by a function `jsonLoads : String → Option JValue`
  (`none` models a raised `JSONDecodeError`).  Theorems about the pipeline
  quantify over this parameter; concrete counterexamples instantiate it with a
  function whose behaviour on the single string involved is that of a JSON
  parser (the string is valid JSON text denoting exactly the stated value).
* Python exceptions inside the evaluator are modelled with `Option`
  (`none` = an exception was raised); the `try/except` blocks of the source
  turn `none` into the fallback result, exactly as the code does.
* The grade strings of the source are Spanish; the spec refers to them by the
  English labels Excellent = "Excelente", Good = "Bueno", Fair = "Regular",
  Needs-improvement = "Necesita mejoras".
-/

/-- Round a rational to the nearest integer, ties to even: the rounding used by
the Python built-in `round`. -/
def pyRoundInt (q : ℚ) : ℤ :=
  let f := ⌊q⌋
  if q - f < 1/2 then f
  else if 1/2 < q - f then f + 1
  else if f % 2 = 0 then f else f + 1

/-- Model of Python `round(x, 1)`: round to one decimal place, ties to even. -/
def round1 (q : ℚ) : ℚ := (pyRoundInt (10 * q) : ℚ) / 10

/-- The four fixed evaluation categories. -/
inductive Category where
  | typography
  | color
  | layout
  | usability
deriving DecidableEq

/-- `SCORING_WEIGHTS` of `backend/design_evaluator.py` (lines 10-15):
0.25 for each category. -/
def SCORING_WEIGHTS : Category → ℚ
  | .typography => 25/100
  | .color => 25/100
  | .layout => 25/100
  | .usability => 25/100

namespace Config

/-- `SCORING_WEIGHTS` of `config/scoring_weights.py` (lines 2-7):
0.25 / 0.25 / 0.30 / 0.20. -/
def SCORING_WEIGHTS : Category → ℚ
  | .typography => 25/100
  | .color => 25/100
  | .layout => 30/100
  | .usability => 20/100

end Config

/-- `DesignEvaluator._get_grade` (lines 369-378): numeric score to qualitative
grade. -/
def get_grade (score : ℚ) : String :=
  if 85 ≤ score then "Excelente"
  else if 70 ≤ score then "Bueno"
  else if 50 ≤ score then "Regular"
  else "Necesita mejoras"

/-- Parsed JSON values, as produced by Python `json.loads`. -/
inductive JValue where
  | null : JValue
  | bool : Bool → JValue
  | num : ℚ → JValue
  | str : String → JValue
  | arr : List JValue → JValue
  | obj : List (String × JValue) → JValue

/-- One entry of the `categories` dict of an evaluation result: the source
stores `score`, `weight` and (on the LLM path only) `reasoning`.  `reasoning`
is whatever JSON value the model supplied; `none` models the key being absent
(heuristic and fallback paths). -/
structure CategoryEntry where
  score : ℚ
  weight : ℚ
  reasoning : Option JValue

/-- The result dict returned by the evaluator: `total_score`, the four
`categories` entries, `recommendations` and `grade`.  `recommendations` is
kept as a raw JSON value because the LLM path stores whatever the parsed
response held under that key, without validation; the heuristic and fallback
paths store an array of strings. -/
structure EvaluationResult where
  total_score : ℚ
  typography : CategoryEntry
  color : CategoryEntry
  layout : CategoryEntry
  usability : CategoryEntry
  recommendations : JValue
  grade : String

/-- The generic recommendation string of the fallback result (line 390). -/
def FALLBACK_REC : String :=
  "No se pudo analizar completamente. Verifica la calidad de la imagen."

/-- `DesignEvaluator._get_fallback_evaluation` (lines 380-392): the fixed
neutral result. -/
def get_fallback_evaluation : EvaluationResult :=
  ⟨50, ⟨50, SCORING_WEIGHTS .typography, none⟩, ⟨50, SCORING_WEIGHTS .color, none⟩,
    ⟨50, SCORING_WEIGHTS .layout, none⟩, ⟨50, SCORING_WEIGHTS .usability, none⟩,
    .arr [.str FALLBACK_REC], "Regular"⟩

/-- Advisory string appended when the typography sub-score is below 70
(line 356). -/
def REC_TYPOGRAPHY : String :=
  "Mejora la legibilidad: usa tamaños de fuente entre 14-18px y asegura buen contraste."

/-- Advisory string appended when the color sub-score is below 70 (line 358). -/
def REC_COLOR : String :=
  "Optimiza la paleta de colores: busca armonía y asegura accesibilidad (contraste mínimo 4.5:1)."

/-- Advisory string appended when the layout sub-score is below 70 (line 360). -/
def REC_LAYOUT : String :=
  "Revisa el layout: utiliza mejor los espacios en blanco y asegura estructura clara."

/-- Advisory string appended when the usability sub-score is below 70
(line 362). -/
def REC_USABILITY : String :=
  "Mejora la usabilidad: simplifica la navegación y agrega elementos interactivos claros."

/-- Congratulatory string appended when no advisory was generated (line 365). -/
def REC_CONGRATS : String :=
  "¡Excelente trabajo! Tu sitio tiene un diseño muy sólido."

/-- `DesignEvaluator._generate_recommendations` (lines 350-367). -/
def generate_recommendations (typography color layout usability : ℚ) : List String :=
  let recs : List String := []
  let recs := if typography < 70 then recs ++ [REC_TYPOGRAPHY] else recs
  let recs := if color < 70 then recs ++ [REC_COLOR] else recs
  let recs := if layout < 70 then recs ++ [REC_LAYOUT] else recs
  let recs := if usability < 70 then recs ++ [REC_USABILITY] else recs
  if recs.isEmpty then [REC_CONGRATS] else recs

/-- A vertex of a bounding polygon of a detected text region
(Google Vision `bounding_poly.vertices`; the API returns four corners). -/
structure Vertex where
  x : ℤ
  y : ℤ

/-- One detected text region: its textual content and the four vertices of its
bounding polygon. -/
structure DetectedText where
  description : String
  v0 : Vertex
  v1 : Vertex
  v2 : Vertex
  v3 : Vertex

/-- Height of a detected text region, as computed at line 257:
`abs(bounds[2].y - bounds[0].y)` (an integer, used as a rational). -/
def textHeight (t : DetectedText) : ℚ := ((t.v2.y - t.v0.y).natAbs : ℚ)

/-- The `vision_results` dict: the `texts` entry, with a default of the
empty list (line 249), yields this
list (a missing key yields the empty list). -/
structure VisionResults where
  texts : List DetectedText

/-- A pixel value as returned by PIL `Image.getcolors`: either a single band
value or a tuple of band values.  Band values of PIL raster images are
nonnegative. -/
inductive Pixel where
  | scalar : ℕ → Pixel
  | channels : List ℕ → Pixel

/-- The slice of a PIL image that the heuristic evaluator reads: its size and
the value returned by `getcolors(width * height)` (`none` models PIL returning
`None`). -/
structure PILImage where
  width : ℕ
  height : ℕ
  getcolorsResult : Option (List (ℕ × Pixel))

/-- Mean of a list of rationals (`sum(text_sizes) / len(text_sizes)`,
line 261). -/
def avgOf (l : List ℚ) : ℚ := l.sum / (l.length : ℚ)

/-- The font-size bonus of `_evaluate_typography` (lines 260-266): +20 for a
mean height in [14,18], otherwise +10 for a mean height in [12,20], otherwise
nothing; no bonus when no sizes were collected. -/
def typographySizeBonus (textSizes : List ℚ) : ℚ :=
  if textSizes.isEmpty then 0
  else if 14 ≤ avgOf textSizes ∧ avgOf textSizes ≤ 18 then 20
  else if 12 ≤ avgOf textSizes ∧ avgOf textSizes ≤ 20 then 10
  else 0

/-- `DesignEvaluator._evaluate_typography` (lines 245-271).  The first text
annotation (the full-page text) is skipped; with no annotations at all the
base score 50 is returned before the +15 contrast bonus is added. -/
def evaluate_typography (vision : VisionResults) (pilImage : PILImage) : ℚ :=
  match vision.texts with
  | [] => 50
  | _ :: rest => min 100 (50 + typographySizeBonus (rest.map textHeight) + 15)

/-- The hue component of `colorsys.rgb_to_hsv` (Python standard library),
on rational inputs: 0 when all bands are equal, otherwise the usual sextant
formula reduced modulo 1.  `Int.fract` models Python `% 1`. -/
def hsvHue (r g b : ℚ) : ℚ :=
  let maxc := max r (max g b)
  let minc := min r (min g b)
  if minc = maxc then 0
  else
    let rangec := maxc - minc
    let rc := (maxc - r) / rangec
    let gc := (maxc - g) / rangec
    let bc := (maxc - b) / rangec
    let h := if r = maxc then bc - gc
      else if g = maxc then 2 + rc - bc
      else 4 + gc - rc
    Int.fract (h / 6)

/-- Hue bucket of one dominant color (lines 286-290): only tuple-like pixel
values with at least three bands contribute; the hue is converted to degrees
and rounded. -/
def pixelHue : Pixel → Option ℤ
  | .channels (r :: g :: b :: _) =>
      some (pyRoundInt (hsvHue ((r : ℚ)/255) ((g : ℚ)/255) ((b : ℚ)/255) * 360))
  | .channels _ => none
  | .scalar _ => none

/-- `DesignEvaluator._evaluate_color` (lines 273-304): stably sort the colors
by descending pixel count, keep the ten most frequent, count distinct rounded
hue degrees among them, cap the diversity bonus at 30 and add the fixed
accessibility (25) and consistency (20) components.  `None` or an empty color
list yields 50 (the `if not colors` branch). -/
def evaluate_color (pilImage : PILImage) : ℚ :=
  match pilImage.getcolorsResult with
  | none => 50
  | some colors =>
    if colors.isEmpty then 50
    else
      let dominantColors := (List.insertionSort (fun a b : ℕ × Pixel => b.1 ≤ a.1) colors).take 10
      let uniqueHues := (dominantColors.filterMap fun c => pixelHue c.2).dedup
      let harmonyScore : ℚ := min 30 ((uniqueHues.length : ℚ) * 3)
      let accessibilityScore : ℚ := 25
      let consistencyScore : ℚ := 20
      harmonyScore + accessibilityScore + consistencyScore

/-- `DesignEvaluator._evaluate_layout` (lines 306-324): base 60, +15 when the
aspect ratio width/height lies in [1.3, 1.8], plus fixed whitespace (15) and
structure (10) components, clamped to 100.  (PIL images have positive
dimensions, so the division is always defined in the source.) -/
def evaluate_layout (vision : VisionResults) (pilImage : PILImage) : ℚ :=
  let aspect : ℚ := (pilImage.width : ℚ) / (pilImage.height : ℚ)
  let score : ℚ := if 13/10 ≤ aspect ∧ aspect ≤ 18/10 then 60 + 15 else 60
  min 100 (score + 15 + 10)

/-- Character-wise lowercasing, modelling Python `str.lower` on the ASCII
vocabulary the source compares against. -/
def pyLower (s : String) : String := ⟨s.toList.map Char.toLower⟩

/-- Substring membership, modelling Python `needle in hay`. -/
def containsSub (hay needle : String) : Bool :=
  hay.toList.tails.any fun t => needle.toList.isPrefixOf t

/-- The navigation vocabulary of `_evaluate_usability` (line 334). -/
def NAV_INDICATORS : List String := ["menu", "nav", "home", "contact", "about"]

/-- `DesignEvaluator._evaluate_usability` (lines 326-348): base 55, +20 when
any detected text contains a navigation word (case-insensitive substring
match), plus fixed interactivity (15) and performance (10) components, clamped
to 100. -/
def evaluate_usability (vision : VisionResults) : ℚ :=
  let navScore : ℚ :=
    if vision.texts.any (fun t =>
        NAV_INDICATORS.any fun ind => containsSub (pyLower t.description) ind)
    then 20 else 0
  min 100 (55 + navScore + 15 + 10)

/-- `DesignEvaluator._evaluate_basic` (lines 200-243): the heuristic strategy.
The total is the weighted sum of the unrounded sub-scores; the stored category
scores are rounded to one decimal; the grade is computed from the unrounded
total. -/
def evaluate_basic (vision : VisionResults) (pilImage : PILImage) : EvaluationResult :=
  let typographyScore := evaluate_typography vision pilImage
  let colorScore := evaluate_color pilImage
  let layoutScore := evaluate_layout vision pilImage
  let usabilityScore := evaluate_usability vision
  let totalScore :=
    typographyScore * SCORING_WEIGHTS .typography +
    colorScore * SCORING_WEIGHTS .color +
    layoutScore * SCORING_WEIGHTS .layout +
    usabilityScore * SCORING_WEIGHTS .usability
  ⟨round1 totalScore,
    ⟨round1 typographyScore, SCORING_WEIGHTS .typography, none⟩,
    ⟨round1 colorScore, SCORING_WEIGHTS .color, none⟩,
    ⟨round1 layoutScore, SCORING_WEIGHTS .layout, none⟩,
    ⟨round1 usabilityScore, SCORING_WEIGHTS .usability, none⟩,
    .arr ((generate_recommendations typographyScore colorScore layoutScore usabilityScore).map .str),
    get_grade totalScore⟩

/-- Python string `strip`: remove leading and trailing whitespace
(character-wise, line 146 and line 154). -/
def pyStrip (s : String) : String :=
  ⟨((s.toList.dropWhile Char.isWhitespace).reverse.dropWhile Char.isWhitespace).reverse⟩

/-- Python `s.startswith(pre)` (character-wise). -/
def pyStartsWith (s pre : String) : Bool := pre.toList.isPrefixOf s.toList

/-- Python `s.endswith(suf)` (character-wise). -/
def pyEndsWith (s suf : String) : Bool := suf.toList.reverse.isPrefixOf s.toList.reverse

/-- Python `s[n:]`: drop the first `n` characters. -/
def pyDrop (s : String) (n : ℕ) : String := ⟨s.toList.drop n⟩

/-- Python `s[:-n]`: drop the last `n` characters. -/
def pyDropRight (s : String) (n : ℕ) : String := ⟨s.toList.take (s.toList.length - n)⟩

/-- The markdown-fence cleaning of `_evaluate_with_llm` (lines 150-153): drop a
leading "```json" marker (7 characters) and a trailing "```" marker
(3 characters), each only if present. -/
def stripCodeFences (s : String) : String :=
  let s1 := if pyStartsWith s "```json" then pyDrop s 7 else s
  if pyEndsWith s1 "```" then pyDropRight s1 3 else s1

/-- The full text cleaning applied to the raw model output before JSON parsing
(lines 146-154): strip whitespace, strip code fences, strip whitespace. -/
def cleanLLMText (s : String) : String := pyStrip (stripCodeFences (pyStrip s))

/-- Python `d[k]` on a parsed JSON value: a lookup in an object (with the
last duplicate key winning, as in `json.loads`); on any non-object the source
would raise, modelled by `none`. -/
def jGet (v : JValue) (k : String) : Option JValue :=
  match v with
  | .obj fields => fields.reverse.lookup k
  | _ => none

/-- Numeric reading of a JSON value, as Python arithmetic accepts it:
numbers are numbers and booleans are 0/1 (Python `bool` is an `int` subtype);
anything else raises a `TypeError` in `score * weight`, modelled by `none`. -/
def jNum : JValue → Option ℚ
  | .num q => some q
  | .bool b => some (if b then 1 else 0)
  | _ => none

/-- The fields of the parsed LLM response that `_evaluate_with_llm` reads
(lines 159-191): four numeric scores, four reasoning values and the
recommendations value. -/
structure LLMParsed where
  tScore : ℚ
  cScore : ℚ
  lScore : ℚ
  uScore : ℚ
  tReason : JValue
  cReason : JValue
  lReason : JValue
  uReason : JValue
  recs : JValue

/-- The dict accesses of `_evaluate_with_llm` on the parsed response
(lines 159-191): every category object, every `score` (numeric), every
`reasoning` and the `recommendations` key must be present; any failure is a
raised `KeyError`/`TypeError`, caught at line 195, modelled by `none`.
No range check is performed on any score. -/
def extractLLM (v : JValue) : Option LLMParsed := do
  let tObj ← jGet v "typography"
  let cObj ← jGet v "color"
  let lObj ← jGet v "layout"
  let uObj ← jGet v "usability"
  let tScore ← jNum (← jGet tObj "score")
  let cScore ← jNum (← jGet cObj "score")
  let lScore ← jNum (← jGet lObj "score")
  let uScore ← jNum (← jGet uObj "score")
  let tReason ← jGet tObj "reasoning"
  let cReason ← jGet cObj "reasoning"
  let lReason ← jGet lObj "reasoning"
  let uReason ← jGet uObj "reasoning"
  let recs ← jGet v "recommendations"
  pure ⟨tScore, cScore, lScore, uScore, tReason, cReason, lReason, uReason, recs⟩

/-- The result built by `_evaluate_with_llm` from a successfully read response
(lines 159-193): the total is the weighted sum of the raw scores, rounded to
one decimal; the stored category scores are the raw scores rounded to one
decimal; the grade is computed from the unrounded total; reasoning and
recommendations are stored as received, without validation. -/
def llmResultFrom (p : LLMParsed) : EvaluationResult :=
  let totalScore :=
    p.tScore * SCORING_WEIGHTS .typography +
    p.cScore * SCORING_WEIGHTS .color +
    p.lScore * SCORING_WEIGHTS .layout +
    p.uScore * SCORING_WEIGHTS .usability
  ⟨round1 totalScore,
    ⟨round1 p.tScore, SCORING_WEIGHTS .typography, some p.tReason⟩,
    ⟨round1 p.cScore, SCORING_WEIGHTS .color, some p.cReason⟩,
    ⟨round1 p.lScore, SCORING_WEIGHTS .layout, some p.lReason⟩,
    ⟨round1 p.uScore, SCORING_WEIGHTS .usability, some p.uReason⟩,
    p.recs,
    get_grade totalScore⟩

/-- Outcome of the OpenAI chat-completion call at lines 129-143: the call
either raises (network error, etc.) or returns the raw content string of the
model message. -/
inductive LLMOutcome where
  | raises : LLMOutcome
  | returns : String → LLMOutcome

/-- `DesignEvaluator._evaluate_with_llm` (lines 93-198), parameterised by the
behaviour `jsonLoads` of Python `json.loads` (`none` = parse error).  Every
failure — a raised call, a parse error, a missing key or a non-numeric
score — is caught by the `except` at line 195 and turned into the fallback
result.  The page URL only feeds the prompt and cannot influence the result
beyond the call outcome, which is modelled explicitly. -/
def evaluate_with_llm (jsonLoads : String → Option JValue)
    (outcome : LLMOutcome) (pageUrl : String) : EvaluationResult :=
  match outcome with
  | .raises => get_fallback_evaluation
  | .returns content =>
    match jsonLoads (cleanLLMText content) with
    | none => get_fallback_evaluation
    | some v =>
      match extractLLM v with
      | none => get_fallback_evaluation
      | some p => llmResultFrom p

/-- `DesignEvaluator.evaluate_design` (lines 48-69).  The configured client
is modelled by `Option LLMOutcome`: `none` models `self.openai_client` being
`None`; `some outcome` models a configured client whose chat-completion call
behaves as `outcome`.  With a client the LLM strategy is used (it handles its
own failures); without one the fixed fallback result is returned directly.
The body never calls `_evaluate_basic`. -/
def evaluate_design (jsonLoads : String → Option JValue)
    (openai_client : Option LLMOutcome) (page_url : String) : EvaluationResult :=
  match openai_client with
  | some outcome => evaluate_with_llm jsonLoads outcome page_url
  | none => get_fallback_evaluation

/-- The strategies an `evaluate_design` call can dispatch to.  `heuristic`
stands for `_evaluate_basic`; it is listed so that its absence from the
orchestrator can be stated. -/
inductive StrategyPath where
  | llm : StrategyPath
  | heuristic : StrategyPath
  | neutral : StrategyPath
deriving DecidableEq

/-- The branch taken by `evaluate_design` (lines 58-69): with a configured
client the LLM strategy, otherwise the direct neutral fallback.  No branch of
the source dispatches to `_evaluate_basic`. -/
def evaluateDesignPath : Option LLMOutcome → StrategyPath
  | some _ => .llm
  | none => .neutral

/-- Follows the data-model words of the spec (section 3): a structurally valid
`EvaluationResult` has `total_score` in [0,100], each category score in
[0,100] with weight in (0,1], a non-empty list of strings as recommendations,
and one of the four grades.  This definition is written from the spec, to be
compared with what the source produces. -/
abbrev specValidCategoryEntry (c : CategoryEntry) : Prop :=
  (0 ≤ c.score ∧ c.score ≤ 100) ∧ (0 < c.weight ∧ c.weight ≤ 1)

/-- Whether a JSON value is a non-empty array of strings (the type the spec
gives for
`recommendations`). -/
def isNonemptyStringArray : JValue → Bool
  | .arr elems =>
      !elems.isEmpty && elems.all fun e => match e with | .str _ => true | _ => false
  | _ => false

/-- Follows the data-model words of the spec (section 3): structural validity of a
full `EvaluationResult`. -/
abbrev specValidEvaluationResult (r : EvaluationResult) : Prop :=
  (0 ≤ r.total_score ∧ r.total_score ≤ 100) ∧
  specValidCategoryEntry r.typography ∧
  specValidCategoryEntry r.color ∧
  specValidCategoryEntry r.layout ∧
  specValidCategoryEntry r.usability ∧
  isNonemptyStringArray r.recommendations = true ∧
  (r.grade = "Excelente" ∨ r.grade = "Bueno" ∨ r.grade = "Regular" ∨
    r.grade = "Necesita mejoras")


/-- A parse function that always fails: models `json.loads` raising on the
strings it is applied to in the witnesses below. -/
def jlNone : String → Option JValue := fun _ => none

/-- A detected text region of the given height used in concrete evaluations:
a word box from (0,0) to (120,h). -/
def demoText (h : ℤ) : DetectedText := ⟨"Inicio", ⟨0, 0⟩, ⟨120, 0⟩, ⟨120, h⟩, ⟨0, h⟩⟩

/-- Vision results with one full-page annotation (skipped by the source) and
one word of height 16. -/
def demoVision16 : VisionResults := ⟨[demoText 40, demoText 16]⟩

/-- Vision results with one full-page annotation (skipped by the source) and
one word of height 25. -/
def demoVision25 : VisionResults := ⟨[demoText 40, demoText 25]⟩

/-- A concrete image input for the heuristic evaluator. -/
def demoImage : PILImage := ⟨1440, 900, none⟩

/-- The parsed response used against claim C4: well-formed JSON, every key
present, but a typography score of 150, outside 0-100. -/
def c4JVal : JValue :=
  .obj [("typography", .obj [("score", .num 150), ("reasoning", .str "r")]),
        ("color", .obj [("score", .num 80), ("reasoning", .str "r")]),
        ("layout", .obj [("score", .num 80), ("reasoning", .str "r")]),
        ("usability", .obj [("score", .num 80), ("reasoning", .str "r")]),
        ("recommendations", .arr [.str "a", .str "b", .str "c"])]

/-- The raw model output for the C4 counterexample: valid JSON text denoting
exactly `c4JVal`. -/
def c4Content : String :=
  "\x7b\"typography\": \x7b\"score\": 150, \"reasoning\": \"r\"\x7d, \"color\": \x7b\"score\": 80, \"reasoning\": \"r\"\x7d, \"layout\": \x7b\"score\": 80, \"reasoning\": \"r\"\x7d, \"usability\": \x7b\"score\": 80, \"reasoning\": \"r\"\x7d, \"recommendations\": [\"a\", \"b\", \"c\"]\x7d"

/-- Models Python `json.loads` on the single string the C4 counterexample
evaluates it at: `c4Content` is valid JSON text denoting `c4JVal`. -/
def jlC4 : String → Option JValue := fun s => if s = c4Content then some c4JVal else none

/-- The parsed response used against claim C1: well-formed JSON, every key
present, all scores in range, but an empty recommendations list. -/
def c1JVal : JValue :=
  .obj [("typography", .obj [("score", .num 80), ("reasoning", .str "ok")]),
        ("color", .obj [("score", .num 80), ("reasoning", .str "ok")]),
        ("layout", .obj [("score", .num 80), ("reasoning", .str "ok")]),
        ("usability", .obj [("score", .num 80), ("reasoning", .str "ok")]),
        ("recommendations", .arr [])]

/-- The raw model output for the C1 counterexample: valid JSON text denoting
exactly `c1JVal`. -/
def c1Content : String :=
  "\x7b\"typography\": \x7b\"score\": 80, \"reasoning\": \"ok\"\x7d, \"color\": \x7b\"score\": 80, \"reasoning\": \"ok\"\x7d, \"layout\": \x7b\"score\": 80, \"reasoning\": \"ok\"\x7d, \"usability\": \x7b\"score\": 80, \"reasoning\": \"ok\"\x7d, \"recommendations\": []\x7d"

/-- Models Python `json.loads` on the single string the C1 counterexample
evaluates it at: `c1Content` is valid JSON text denoting `c1JVal`. -/
def jlC1 : String → Option JValue := fun s => if s = c1Content then some c1JVal else none

/-- The parsed response used against claim C2: well-formed, in-range scores
with two decimal places (70.16, 70.16, 70.16, 69.66). -/
def c2JVal : JValue :=
  .obj [("typography", .obj [("score", .num (7016/100)), ("reasoning", .str "r")]),
        ("color", .obj [("score", .num (7016/100)), ("reasoning", .str "r")]),
        ("layout", .obj [("score", .num (7016/100)), ("reasoning", .str "r")]),
        ("usability", .obj [("score", .num (6966/100)), ("reasoning", .str "r")]),
        ("recommendations", .arr [.str "a", .str "b", .str "c"])]

/-- The raw model output for the C2 counterexample: valid JSON text denoting
exactly `c2JVal`. -/
def c2Content : String :=
  "\x7b\"typography\": \x7b\"score\": 70.16, \"reasoning\": \"r\"\x7d, \"color\": \x7b\"score\": 70.16, \"reasoning\": \"r\"\x7d, \"layout\": \x7b\"score\": 70.16, \"reasoning\": \"r\"\x7d, \"usability\": \x7b\"score\": 69.66, \"reasoning\": \"r\"\x7d, \"recommendations\": [\"a\", \"b\", \"c\"]\x7d"

/-- Models Python `json.loads` on the single string the C2 counterexample
evaluates it at: `c2Content` is valid JSON text denoting `c2JVal`. -/
def jlC2 : String → Option JValue := fun s => if s = c2Content then some c2JVal else none

/-- The category scores of the worked example in section 8 of the spec. -/
def c7Parsed : LLMParsed :=
  ⟨90, 85, 80, 88, .str "t", .str "c", .str "l", .str "u",
    .arr [.str "r1", .str "r2", .str "r3"]⟩

/-- Rounding an integer-valued rational to one decimal changes nothing. -/
theorem round1_intCast (n : ℤ) : round1 (n : ℚ) = n := by
  have h10 : (10:ℚ) * (n:ℚ) = ((10 * n : ℤ) : ℚ) := by push_cast; ring
  unfold round1 pyRoundInt
  rw [h10, Int.floor_intCast]
  norm_num

/-- Every grade the source can produce is one of the four grade strings. -/
theorem get_grade_cases (s : ℚ) :
    get_grade s = "Excelente" ∨ get_grade s = "Bueno" ∨ get_grade s = "Regular" ∨
      get_grade s = "Necesita mejoras" := by
  unfold get_grade
  split_ifs <;> simp

/-- Closed form of `_generate_recommendations`: the concatenation of the
advisories of the categories scoring below 70, or the congratulatory string
alone when there are none. -/
theorem generate_recommendations_eq (t c l u : ℚ) :
    generate_recommendations t c l u =
      if t < 70 ∨ c < 70 ∨ l < 70 ∨ u < 70 then
        (if t < 70 then [REC_TYPOGRAPHY] else []) ++
        (if c < 70 then [REC_COLOR] else []) ++
        (if l < 70 then [REC_LAYOUT] else []) ++
        (if u < 70 then [REC_USABILITY] else [])
      else [REC_CONGRATS] := by
  unfold generate_recommendations
  split_ifs <;> simp_all [← not_lt]

/-- The five recommendation strings are pairwise distinct. -/
theorem rec_strings_distinct :
    REC_TYPOGRAPHY ≠ REC_COLOR ∧ REC_TYPOGRAPHY ≠ REC_LAYOUT ∧
    REC_TYPOGRAPHY ≠ REC_USABILITY ∧ REC_TYPOGRAPHY ≠ REC_CONGRATS ∧
    REC_COLOR ≠ REC_LAYOUT ∧ REC_COLOR ≠ REC_USABILITY ∧
    REC_COLOR ≠ REC_CONGRATS ∧ REC_LAYOUT ≠ REC_USABILITY ∧
    REC_LAYOUT ≠ REC_CONGRATS ∧ REC_USABILITY ≠ REC_CONGRATS := by
  refine ⟨?_, ?_, ?_, ?_, ?_, ?_, ?_, ?_, ?_, ?_⟩ <;> decide

/-- C5: recommendation generation is deterministic and mutually exclusive:
each sub-score below 70 contributes exactly one fixed advisory string for its
category and none otherwise; when all four sub-scores are at least 70 the list
is exactly the single congratulatory string; the congratulatory string never
coexists with an advisory, the list length is the number of sub-scores below
70 when any is, and the list is never empty. -/
theorem c5_recommendation_generation (t c l u : ℚ) :
    generate_recommendations t c l u ≠ [] ∧
    (70 ≤ t → 70 ≤ c → 70 ≤ l → 70 ≤ u →
      generate_recommendations t c l u = [REC_CONGRATS]) ∧
    (t < 70 → (generate_recommendations t c l u).count REC_TYPOGRAPHY = 1) ∧
    (70 ≤ t → REC_TYPOGRAPHY ∉ generate_recommendations t c l u) ∧
    (c < 70 → (generate_recommendations t c l u).count REC_COLOR = 1) ∧
    (70 ≤ c → REC_COLOR ∉ generate_recommendations t c l u) ∧
    (l < 70 → (generate_recommendations t c l u).count REC_LAYOUT = 1) ∧
    (70 ≤ l → REC_LAYOUT ∉ generate_recommendations t c l u) ∧
    (u < 70 → (generate_recommendations t c l u).count REC_USABILITY = 1) ∧
    (70 ≤ u → REC_USABILITY ∉ generate_recommendations t c l u) ∧
    (t < 70 ∨ c < 70 ∨ l < 70 ∨ u < 70 →
      REC_CONGRATS ∉ generate_recommendations t c l u ∧
      (generate_recommendations t c l u).length =
        (if t < 70 then 1 else 0) + (if c < 70 then 1 else 0) +
        (if l < 70 then 1 else 0) + (if u < 70 then 1 else 0)) := by
  obtain ⟨d1, d2, d3, d4, d5, d6, d7, d8, d9, d10⟩ := rec_strings_distinct
  rcases lt_or_le t 70 with ht | ht <;> rcases lt_or_le c 70 with hc | hc <;>
    rcases lt_or_le l 70 with hl | hl <;> rcases lt_or_le u 70 with hu | hu <;>
  · (try have ht' : ¬ t < 70 := not_lt.mpr ht)
    (try have hc' : ¬ c < 70 := not_lt.mpr hc)
    (try have hl' : ¬ l < 70 := not_lt.mpr hl)
    (try have hu' : ¬ u < 70 := not_lt.mpr hu)
    simp_all only [generate_recommendations_eq, if_pos, if_neg, if_true, if_false,
      or_true, true_or, or_false, false_or, or_self, ite_true, ite_false,
      List.append_nil, List.nil_append, List.cons_append, List.singleton_append,
      List.count_cons, List.count_nil, List.count_singleton, List.mem_cons,
      List.mem_singleton, List.not_mem_nil, List.length_append, List.length_cons,
      List.length_nil, List.length_singleton, ne_eq, List.cons_ne_nil,
      not_false_eq_true, beq_iff_eq, beq_self_eq_true,
      forall_true_left, true_implies, false_implies, implies_true, true_and,
      and_true, not_true, not_false_iff, or_iff_not_imp_left]
    all_goals simp_all [d1, d2, d3, d4, d5, d6, d7, d8, d9, d10, Ne.symm d1, Ne.symm d2,
      Ne.symm d3, Ne.symm d4, Ne.symm d5, Ne.symm d6, Ne.symm d7, Ne.symm d8,
      Ne.symm d9, Ne.symm d10]

/-- Witness for C5: all sub-scores at least 70 gives exactly the
congratulatory string; typography at 40 gives exactly one typography advisory
and no congratulation. -/
theorem c5_recommendation_generation_witness :
    generate_recommendations 90 85 80 88 = [REC_CONGRATS] ∧
    (generate_recommendations 40 90 90 90).count REC_TYPOGRAPHY = 1 ∧
    REC_CONGRATS ∉ generate_recommendations 40 90 90 90 :=
  ⟨(c5_recommendation_generation 90 85 80 88).2.1
      (by norm_num) (by norm_num) (by norm_num) (by norm_num),
   (c5_recommendation_generation 40 90 90 90).2.2.1 (by norm_num),
   ((c5_recommendation_generation 40 90 90 90).2.2.2.2.2.2.2.2.2.2
      (Or.inl (by norm_num))).1⟩

/-- C6: the typography sub-score applies only the best matching font-size
band: a mean text height in [14,18] yields score 85 (the +20 bonus only), a
mean in [12,20] outside [14,18] yields 75 (the +10 bonus only), and
concretely a mean height of 16 scores 85 while a mean height of 25 scores
65, so 16 strictly beats 25. -/
theorem c6_typography_band_selection :
    (∀ (vr : VisionResults) (img : PILImage) (first : DetectedText)
        (rest : List DetectedText), vr.texts = first :: rest → rest ≠ [] →
      (14 ≤ avgOf (rest.map textHeight) ∧ avgOf (rest.map textHeight) ≤ 18 →
        evaluate_typography vr img = 85) ∧
      ((12 ≤ avgOf (rest.map textHeight) ∧ avgOf (rest.map textHeight) ≤ 20) ∧
          ¬(14 ≤ avgOf (rest.map textHeight) ∧ avgOf (rest.map textHeight) ≤ 18) →
        evaluate_typography vr img = 75)) ∧
    evaluate_typography demoVision16 demoImage = 85 ∧
    evaluate_typography demoVision25 demoImage = 65 ∧
    evaluate_typography demoVision25 demoImage < evaluate_typography demoVision16 demoImage := by
  have hmain : ∀ (vr : VisionResults) (img : PILImage) (first : DetectedText)
      (rest : List DetectedText), vr.texts = first :: rest → rest ≠ [] →
      (14 ≤ avgOf (rest.map textHeight) ∧ avgOf (rest.map textHeight) ≤ 18 →
        evaluate_typography vr img = 85) ∧
      ((12 ≤ avgOf (rest.map textHeight) ∧ avgOf (rest.map textHeight) ≤ 20) ∧
          ¬(14 ≤ avgOf (rest.map textHeight) ∧ avgOf (rest.map textHeight) ≤ 18) →
        evaluate_typography vr img = 75) := by
    intro vr img first rest htex hne
    obtain ⟨texts⟩ := vr
    replace htex : texts = first :: rest := htex
    subst htex
    have hval : evaluate_typography ⟨first :: rest⟩ img =
        min 100 (50 + typographySizeBonus (rest.map textHeight) + 15) := rfl
    have hempty : (rest.map textHeight).isEmpty = false := by
      simp [List.isEmpty_eq_false, hne]
    constructor
    · intro hband
      rw [hval]
      unfold typographySizeBonus
      rw [hempty]
      rw [if_neg (by simp), if_pos hband]
      norm_num [min_def]
    · intro hband
      rw [hval]
      unfold typographySizeBonus
      rw [hempty]
      rw [if_neg (by simp), if_neg hband.2, if_pos hband.1]
      norm_num [min_def]
  have h16 : evaluate_typography demoVision16 demoImage = 85 := by
    refine (hmain demoVision16 demoImage (demoText 40) [demoText 16] rfl (by simp)).1 ?_
    norm_num [avgOf, textHeight, demoText]
  have h25 : evaluate_typography demoVision25 demoImage = 65 := by
    have havg : avgOf ([demoText 25].map textHeight) = 25 := by
      norm_num [avgOf, textHeight, demoText]
    unfold evaluate_typography
    show min 100 (50 + typographySizeBonus ([demoText 25].map textHeight) + 15) = 65
    unfold typographySizeBonus
    rw [havg]
    norm_num [min_def]
  exact ⟨hmain, h16, h25, by rw [h16, h25]; norm_num⟩

/-- Witness for C6: the band behaviour evaluated at the concrete inputs with
mean heights 16 and 25. -/
theorem c6_typography_band_selection_witness :
    evaluate_typography demoVision16 demoImage = 85 ∧
    evaluate_typography demoVision25 demoImage < evaluate_typography demoVision16 demoImage :=
  ⟨(c6_typography_band_selection.1 demoVision16 demoImage (demoText 40) [demoText 16]
      rfl (by simp)).1 (by norm_num [avgOf, textHeight, demoText]),
   c6_typography_band_selection.2.2.2⟩

/-- The font-size bonus only takes the values 0, 10 and 20. -/
theorem typographySizeBonus_cases (l : List ℚ) :
    typographySizeBonus l = 0 ∨ typographySizeBonus l = 10 ∨ typographySizeBonus l = 20 := by
  unfold typographySizeBonus
  split_ifs <;> simp

/-- The hue-diversity bonus lies in [0, 30] for every hue count. -/
theorem harmony_bound (k : ℕ) :
    0 ≤ min (30:ℚ) ((k:ℚ) * 3) ∧ min (30:ℚ) ((k:ℚ) * 3) ≤ 30 :=
  ⟨le_min (by norm_num) (by positivity), min_le_left _ _⟩

/-- The color sub-score is either the error/empty value 50 or the capped
hue-diversity bonus plus the fixed 25 + 20 components. -/
theorem evaluate_color_cases (img : PILImage) :
    evaluate_color img = 50 ∨
    ∃ k : ℕ, evaluate_color img = min 30 ((k:ℚ) * 3) + 25 + 20 := by
  obtain ⟨w, h, gc⟩ := img
  cases gc with
  | none => left; rfl
  | some colors =>
    by_cases hemp : colors.isEmpty
    · left; simp [evaluate_color, hemp]
    · right
      refine ⟨(((List.insertionSort (fun a b => b.1 ≤ a.1) colors).take 10).filterMap
          fun c => pixelHue c.2).dedup.length, ?_⟩
      simp [evaluate_color, hemp]

/-- C8: every heuristic sub-score lies in [0,100] for every image and every
text-detection result; in particular the color sub-score, which has no
explicit clamp, is bounded by its capped (≤ 30) hue-diversity bonus plus the
fixed components 25 + 20 = 45, hence lies in [45, 75] unless it is the
error/empty value 50. -/
theorem c8_subscore_bounds (vr : VisionResults) (img : PILImage) :
    (0 ≤ evaluate_typography vr img ∧ evaluate_typography vr img ≤ 100) ∧
    (0 ≤ evaluate_color img ∧ evaluate_color img ≤ 100) ∧
    (0 ≤ evaluate_layout vr img ∧ evaluate_layout vr img ≤ 100) ∧
    (0 ≤ evaluate_usability vr ∧ evaluate_usability vr ≤ 100) ∧
    (evaluate_color img = 50 ∨
      (45 ≤ evaluate_color img ∧ evaluate_color img ≤ 30 + 45)) := by
  have hcolor : evaluate_color img = 50 ∨
      (45 ≤ evaluate_color img ∧ evaluate_color img ≤ 30 + 45) := by
    rcases evaluate_color_cases img with h | ⟨k, h⟩
    · exact Or.inl h
    · right
      obtain ⟨hb1, hb2⟩ := harmony_bound k
      constructor <;> rw [h] <;> linarith
  refine ⟨?_, ?_, ?_, ?_, hcolor⟩
  · obtain ⟨texts⟩ := vr
    cases texts with
    | nil => norm_num [evaluate_typography]
    | cons f rest =>
      have hval : evaluate_typography ⟨f :: rest⟩ img =
          min 100 (50 + typographySizeBonus (rest.map textHeight) + 15) := rfl
      rcases typographySizeBonus_cases (rest.map textHeight) with h | h | h <;>
        rw [hval, h] <;> constructor <;> norm_num [min_def]
  · rcases hcolor with h | ⟨h1, h2⟩
    · rw [h]; constructor <;> norm_num
    · constructor <;> linarith
  · simp only [evaluate_layout]
    split_ifs <;> constructor <;> norm_num [min_def]
  · simp only [evaluate_usability]
    split_ifs <;> constructor <;> norm_num [min_def]

/-- The typography sub-score is integer-valued. -/
theorem evaluate_typography_int (vr : VisionResults) (img : PILImage) :
    ∃ n : ℤ, evaluate_typography vr img = (n : ℚ) := by
  obtain ⟨texts⟩ := vr
  cases texts with
  | nil => exact ⟨50, by norm_num [evaluate_typography]⟩
  | cons f rest =>
    have hval : evaluate_typography ⟨f :: rest⟩ img =
        min 100 (50 + typographySizeBonus (rest.map textHeight) + 15) := rfl
    rcases typographySizeBonus_cases (rest.map textHeight) with h | h | h
    · exact ⟨65, by rw [hval, h]; norm_num [min_def]⟩
    · exact ⟨75, by rw [hval, h]; norm_num [min_def]⟩
    · exact ⟨85, by rw [hval, h]; norm_num [min_def]⟩

/-- The color sub-score is integer-valued. -/
theorem evaluate_color_int (img : PILImage) :
    ∃ n : ℤ, evaluate_color img = (n : ℚ) := by
  rcases evaluate_color_cases img with h | ⟨k, h⟩
  · exact ⟨50, by rw [h]; norm_num⟩
  · refine ⟨min 30 (3 * (k : ℤ)) + 25 + 20, ?_⟩
    rw [h]
    have hcomm : (k : ℚ) * 3 = 3 * (k : ℚ) := mul_comm _ _
    rw [hcomm]
    push_cast [Int.cast_min]
    norm_num

/-- The layout sub-score is integer-valued. -/
theorem evaluate_layout_int (vr : VisionResults) (img : PILImage) :
    ∃ n : ℤ, evaluate_layout vr img = (n : ℚ) := by
  by_cases hc : (13/10 : ℚ) ≤ (img.width : ℚ) / (img.height : ℚ) ∧
      (img.width : ℚ) / (img.height : ℚ) ≤ 18/10
  · exact ⟨100, by simp only [evaluate_layout]; rw [if_pos hc]; norm_num [min_def]⟩
  · exact ⟨85, by simp only [evaluate_layout]; rw [if_neg hc]; norm_num [min_def]⟩

/-- The usability sub-score is integer-valued. -/
theorem evaluate_usability_int (vr : VisionResults) :
    ∃ n : ℤ, evaluate_usability vr = (n : ℚ) := by
  by_cases hc : (vr.texts.any (fun t =>
      NAV_INDICATORS.any fun ind => containsSub (pyLower t.description) ind)) = true
  · exact ⟨100, by simp only [evaluate_usability]; rw [if_pos hc]; norm_num [min_def]⟩
  · exact ⟨80, by simp only [evaluate_usability]; rw [if_neg hc]; norm_num [min_def]⟩

/-- C2 (amended): in both strategies the `total_score` field is the weighted
sum of the unrounded category scores of the strategy, rounded to one decimal.  For
the heuristic strategy the stored category scores are integers, so they equal
their rounded values and `total_score` also equals the claimed identity
`round1(Σ stored score × stored weight)`. -/
theorem c2_total_score_formula :
    (∀ p : LLMParsed, (llmResultFrom p).total_score =
      round1 (p.tScore * SCORING_WEIGHTS .typography + p.cScore * SCORING_WEIGHTS .color +
        p.lScore * SCORING_WEIGHTS .layout + p.uScore * SCORING_WEIGHTS .usability)) ∧
    (∀ (vr : VisionResults) (img : PILImage),
      (evaluate_basic vr img).total_score =
        round1 ((evaluate_basic vr img).typography.score * (evaluate_basic vr img).typography.weight +
          (evaluate_basic vr img).color.score * (evaluate_basic vr img).color.weight +
          (evaluate_basic vr img).layout.score * (evaluate_basic vr img).layout.weight +
          (evaluate_basic vr img).usability.score * (evaluate_basic vr img).usability.weight)) := by
  constructor
  · intro p; rfl
  · intro vr img
    obtain ⟨nt, ht⟩ := evaluate_typography_int vr img
    obtain ⟨nc, hc⟩ := evaluate_color_int img
    obtain ⟨nl, hl⟩ := evaluate_layout_int vr img
    obtain ⟨nu, hu⟩ := evaluate_usability_int vr
    simp only [evaluate_basic]
    rw [ht, hc, hl, hu, round1_intCast, round1_intCast, round1_intCast, round1_intCast]

/-- Reduction of the LLM strategy on a parse failure. -/
theorem evaluate_with_llm_parse_none (jl : String → Option JValue)
    (content url : String) (h : jl (cleanLLMText content) = none) :
    evaluate_with_llm jl (.returns content) url = get_fallback_evaluation := by
  show (match jl (cleanLLMText content) with
    | none => get_fallback_evaluation
    | some v =>
      match extractLLM v with
      | none => get_fallback_evaluation
      | some p => llmResultFrom p) = get_fallback_evaluation
  rw [h]

/-- Reduction of the LLM strategy on a failed key extraction. -/
theorem evaluate_with_llm_extract_none (jl : String → Option JValue)
    (content url : String) (v : JValue) (h : jl (cleanLLMText content) = some v)
    (hex : extractLLM v = none) :
    evaluate_with_llm jl (.returns content) url = get_fallback_evaluation := by
  show (match jl (cleanLLMText content) with
    | none => get_fallback_evaluation
    | some v =>
      match extractLLM v with
      | none => get_fallback_evaluation
      | some p => llmResultFrom p) = get_fallback_evaluation
  rw [h]
  show (match extractLLM v with
    | none => get_fallback_evaluation
    | some p => llmResultFrom p) = get_fallback_evaluation
  rw [hex]

/-- Reduction of the LLM strategy on a successful key extraction. -/
theorem evaluate_with_llm_extract_some (jl : String → Option JValue)
    (content url : String) (v : JValue) (p : LLMParsed)
    (h : jl (cleanLLMText content) = some v) (hex : extractLLM v = some p) :
    evaluate_with_llm jl (.returns content) url = llmResultFrom p := by
  show (match jl (cleanLLMText content) with
    | none => get_fallback_evaluation
    | some v =>
      match extractLLM v with
      | none => get_fallback_evaluation
      | some p => llmResultFrom p) = llmResultFrom p
  rw [h]
  show (match extractLLM v with
    | none => get_fallback_evaluation
    | some p => llmResultFrom p) = llmResultFrom p
  rw [hex]

/-- A missing `typography` key makes the extraction fail. -/
theorem extractLLM_missing_typography (v : JValue) (h : jGet v "typography" = none) :
    extractLLM v = none := by
  unfold extractLLM
  rw [h]
  rfl

/-- A missing `recommendations` key makes the extraction fail. -/
theorem extractLLM_missing_recommendations (v : JValue)
    (h : jGet v "recommendations" = none) : extractLLM v = none := by
  unfold extractLLM
  simp only [h, Option.bind_eq_bind, Option.none_bind, Option.bind_none]

set_option maxRecDepth 100000 in
set_option maxHeartbeats 1000000 in
/-- C4 (amended): the model response is cleaned (code fences stripped) and
then parsed; a parse failure or any missing key is a hard failure of the LLM
strategy that yields the fallback result; out-of-range scores, however, are
not checked (see the counterexample). -/
theorem c4_parse_policy :
    (∀ (jsonLoads : String → Option JValue) (content url : String),
      jsonLoads (cleanLLMText content) = none →
      evaluate_with_llm jsonLoads (.returns content) url = get_fallback_evaluation) ∧
    (∀ (jsonLoads : String → Option JValue) (content url : String) (v : JValue),
      jsonLoads (cleanLLMText content) = some v → extractLLM v = none →
      evaluate_with_llm jsonLoads (.returns content) url = get_fallback_evaluation) ∧
    (∀ v : JValue, jGet v "typography" = none → extractLLM v = none) ∧
    (∀ v : JValue, jGet v "recommendations" = none → extractLLM v = none) ∧
    cleanLLMText "```json \x7b\"score\": 1\x7d ```" = "\x7b\"score\": 1\x7d" :=
  ⟨fun jl content url h => evaluate_with_llm_parse_none jl content url h,
   fun jl content url v h hex => evaluate_with_llm_extract_none jl content url v h hex,
   fun v h => extractLLM_missing_typography v h,
   fun v h => extractLLM_missing_recommendations v h,
   by decide⟩

/-- Witness for C4: a parse failure and a response missing every key both
produce the fallback result. -/
theorem c4_parse_policy_witness :
    evaluate_with_llm jlNone (.returns "not json") "https://example.com" =
      get_fallback_evaluation ∧
    extractLLM (JValue.obj []) = none :=
  ⟨c4_parse_policy.1 jlNone "not json" "https://example.com" rfl,
   c4_parse_policy.2.2.1 (JValue.obj []) rfl⟩

set_option maxRecDepth 100000 in
/-- C4 counterexample: a well-formed response whose typography score is 150
(outside 0-100) is NOT treated as a hard failure: the strategy returns a
result carrying the out-of-range score instead of the fallback. -/
theorem c4_out_of_range_counterexample :
    (evaluate_with_llm jlC4 (.returns c4Content) "https://example.com").typography.score = 150 ∧
    get_fallback_evaluation.typography.score = 50 ∧
    evaluate_with_llm jlC4 (.returns c4Content) "https://example.com" ≠
      get_fallback_evaluation := by
  have hres : evaluate_with_llm jlC4 (.returns c4Content) "https://example.com" =
      llmResultFrom ⟨150, 80, 80, 80, .str "r", .str "r", .str "r", .str "r",
        .arr [.str "a", .str "b", .str "c"]⟩ := rfl
  have hscore : (evaluate_with_llm jlC4 (.returns c4Content) "https://example.com").typography.score = 150 := by
    rw [hres]
    norm_num [llmResultFrom, round1, pyRoundInt]
  have hfb : get_fallback_evaluation.typography.score = 50 := rfl
  refine ⟨hscore, hfb, fun h => ?_⟩
  rw [h, hfb] at hscore
  norm_num at hscore

/-- C1 (amended): `evaluate_design` is a total function (never propagates an
error): with no client, a raising call, unparseable output or a missing key it
returns exactly the fixed neutral result, whose total score is 50.0, whose
grade is the Fair grade "Regular" and which carries exactly one generic
recommendation; and every result it returns carries one of the four grade
strings.  (Out-of-range scores and invalid recommendation values from a
successfully parsed response are not validated; see the counterexample.) -/
theorem c1_graceful_degradation :
    (∀ (jsonLoads : String → Option JValue) (url : String),
      evaluate_design jsonLoads none url = get_fallback_evaluation) ∧
    (∀ (jsonLoads : String → Option JValue) (url : String),
      evaluate_design jsonLoads (some .raises) url = get_fallback_evaluation) ∧
    (∀ (jsonLoads : String → Option JValue) (url content : String),
      jsonLoads (cleanLLMText content) = none →
      evaluate_design jsonLoads (some (.returns content)) url = get_fallback_evaluation) ∧
    (∀ (jsonLoads : String → Option JValue) (url content : String) (v : JValue),
      jsonLoads (cleanLLMText content) = some v → extractLLM v = none →
      evaluate_design jsonLoads (some (.returns content)) url = get_fallback_evaluation) ∧
    (get_fallback_evaluation.total_score = 50 ∧
      get_fallback_evaluation.grade = "Regular" ∧
      get_fallback_evaluation.recommendations = .arr [.str FALLBACK_REC]) ∧
    (∀ (jsonLoads : String → Option JValue) (client : Option LLMOutcome) (url : String),
      (evaluate_design jsonLoads client url).grade = "Excelente" ∨
      (evaluate_design jsonLoads client url).grade = "Bueno" ∨
      (evaluate_design jsonLoads client url).grade = "Regular" ∨
      (evaluate_design jsonLoads client url).grade = "Necesita mejoras") := by
  refine ⟨fun _ _ => rfl, fun _ _ => rfl, ?_, ?_, ⟨rfl, rfl, rfl⟩, ?_⟩
  · intro jl url content h
    exact evaluate_with_llm_parse_none jl content url h
  · intro jl url content v h hex
    exact evaluate_with_llm_extract_none jl content url v h hex
  · intro jl client url
    rcases client with _ | oc
    · right; right; left; rfl
    · rcases oc with _ | content
      · right; right; left; rfl
      · have hd : evaluate_design jl (some (.returns content)) url =
            evaluate_with_llm jl (.returns content) url := rfl
        cases hjl : jl (cleanLLMText content) with
        | none =>
          rw [hd, evaluate_with_llm_parse_none jl content url hjl]
          right; right; left; rfl
        | some v =>
          cases hex : extractLLM v with
          | none =>
            rw [hd, evaluate_with_llm_extract_none jl content url v hjl hex]
            right; right; left; rfl
          | some p =>
            rw [hd, evaluate_with_llm_extract_some jl content url v p hjl hex]
            have hg : (llmResultFrom p).grade =
                get_grade (p.tScore * SCORING_WEIGHTS .typography +
                  p.cScore * SCORING_WEIGHTS .color + p.lScore * SCORING_WEIGHTS .layout +
                  p.uScore * SCORING_WEIGHTS .usability) := rfl
            rw [hg]
            exact get_grade_cases _

/-- Witness for C1: the fallback equalities evaluated with no client and with
a client whose output fails parsing. -/
theorem c1_graceful_degradation_witness :
    evaluate_design jlNone none "https://example.com" = get_fallback_evaluation ∧
    evaluate_design jlNone (some (.returns "oops")) "https://example.com" =
      get_fallback_evaluation :=
  ⟨c1_graceful_degradation.1 jlNone "https://example.com",
   c1_graceful_degradation.2.2.1 jlNone "https://example.com" "oops" rfl⟩

set_option maxRecDepth 100000 in
/-- C1 counterexample: with a client whose response is well-formed JSON with
all keys present but an empty recommendations list, `evaluate_design` returns
a result that is not structurally valid (its recommendations are empty), so
the unconditional structural-validity guarantee fails. -/
theorem c1_structural_validity_counterexample :
    ¬ specValidEvaluationResult
        (evaluate_design jlC1 (some (.returns c1Content)) "https://example.com") := by
  have hres : evaluate_design jlC1 (some (.returns c1Content)) "https://example.com" =
      llmResultFrom ⟨80, 80, 80, 80, .str "ok", .str "ok", .str "ok", .str "ok",
        .arr []⟩ := rfl
  rw [hres]
  intro h
  have hrec := h.2.2.2.2.2.1
  simp [llmResultFrom, isNonemptyStringArray] at hrec

set_option maxRecDepth 100000 in
/-- C2 counterexample: for the parsed scores 70.16/70.16/70.16/69.66 the
reported `total_score` is 70.0, but the weighted sum of the stored (rounded)
category scores rounds to 70.1: the claimed identity over the stored category
fields fails. -/
theorem c2_rounding_counterexample :
    (evaluate_with_llm jlC2 (.returns c2Content) "https://example.com").total_score = 70 ∧
    round1 ((evaluate_with_llm jlC2 (.returns c2Content) "https://example.com").typography.score *
        (evaluate_with_llm jlC2 (.returns c2Content) "https://example.com").typography.weight +
      (evaluate_with_llm jlC2 (.returns c2Content) "https://example.com").color.score *
        (evaluate_with_llm jlC2 (.returns c2Content) "https://example.com").color.weight +
      (evaluate_with_llm jlC2 (.returns c2Content) "https://example.com").layout.score *
        (evaluate_with_llm jlC2 (.returns c2Content) "https://example.com").layout.weight +
      (evaluate_with_llm jlC2 (.returns c2Content) "https://example.com").usability.score *
        (evaluate_with_llm jlC2 (.returns c2Content) "https://example.com").usability.weight) =
      701/10 ∧
    (70 : ℚ) ≠ 701/10 := by
  have hres : evaluate_with_llm jlC2 (.returns c2Content) "https://example.com" =
      llmResultFrom ⟨7016/100, 7016/100, 7016/100, 6966/100, .str "r", .str "r",
        .str "r", .str "r", .arr [.str "a", .str "b", .str "c"]⟩ := rfl
  refine ⟨?_, ?_, by norm_num⟩ <;> rw [hres] <;>
    norm_num [llmResultFrom, SCORING_WEIGHTS, round1, pyRoundInt]

/-- C9: in both weight sets the program defines for the four categories — the
evaluator SCORING_WEIGHTS (0.25 each) and the config-module SCORING_WEIGHTS
(0.25/0.25/0.30/0.20) — the four weights sum exactly to 1.0. -/
theorem c9_weights_sum_to_one :
    SCORING_WEIGHTS .typography + SCORING_WEIGHTS .color +
      SCORING_WEIGHTS .layout + SCORING_WEIGHTS .usability = 1 ∧
    Config.SCORING_WEIGHTS .typography + Config.SCORING_WEIGHTS .color +
      Config.SCORING_WEIGHTS .layout + Config.SCORING_WEIGHTS .usability = 1 := by
  constructor <;> norm_num [SCORING_WEIGHTS, Config.SCORING_WEIGHTS]

/-- C3: the grade is the deterministic step function of the total score:
[85,100] maps to Excellent ("Excelente"), [70,85) to Good ("Bueno"),
[50,70) to Fair ("Regular") and scores below 50 to Needs-improvement
("Necesita mejoras"); each boundary value belongs to the higher band. -/
theorem c3_grade_step_function (s : ℚ) :
    (85 ≤ s → s ≤ 100 → get_grade s = "Excelente") ∧
    (70 ≤ s → s < 85 → get_grade s = "Bueno") ∧
    (50 ≤ s → s < 70 → get_grade s = "Regular") ∧
    (s < 50 → get_grade s = "Necesita mejoras") := by
  refine ⟨fun h1 h2 => ?_, fun h1 h2 => ?_, fun h1 h2 => ?_, fun h1 => ?_⟩ <;>
    · unfold get_grade
      split_ifs <;> first | rfl | linarith

/-- Witness for C3: the step function evaluated at the three boundary values
and one low score. -/
theorem c3_grade_step_function_witness :
    get_grade 85 = "Excelente" ∧ get_grade 70 = "Bueno" ∧
    get_grade 50 = "Regular" ∧ get_grade 49 = "Necesita mejoras" :=
  ⟨(c3_grade_step_function 85).1 (by norm_num) (by norm_num),
   (c3_grade_step_function 70).2.1 (by norm_num) (by norm_num),
   (c3_grade_step_function 50).2.2.1 (by norm_num) (by norm_num),
   (c3_grade_step_function 49).2.2.2 (by norm_num)⟩

/-- C7: for category scores typography 90, color 85, layout 80, usability 88
under the 0.25 evaluator weights, the weighted total is 85.75 before
rounding, the reported total score is 85.8, and the grade is Excellent
("Excelente"). -/
theorem c7_worked_example :
    90 * SCORING_WEIGHTS .typography + 85 * SCORING_WEIGHTS .color +
      80 * SCORING_WEIGHTS .layout + 88 * SCORING_WEIGHTS .usability = 8575/100 ∧
    (llmResultFrom c7Parsed).total_score = 858/10 ∧
    (llmResultFrom c7Parsed).grade = "Excelente" := by
  refine ⟨by norm_num [SCORING_WEIGHTS], ?_, ?_⟩ <;>
    norm_num [llmResultFrom, c7Parsed, SCORING_WEIGHTS, round1, pyRoundInt, get_grade]

/-- C10: with no LLM client configured, `evaluate_design` returns the fixed
neutral fallback result directly, for every parser behaviour and every URL;
the branch structure of `evaluate_design` never dispatches to the heuristic
evaluator `_evaluate_basic` for any configuration. -/
theorem c10_no_heuristic_from_evaluate_design :
    (∀ (jsonLoads : String → Option JValue) (url : String),
        evaluate_design jsonLoads none url = get_fallback_evaluation) ∧
    evaluateDesignPath none = StrategyPath.neutral ∧
    (∀ client : Option LLMOutcome, evaluateDesignPath client ≠ StrategyPath.heuristic) := by
  refine ⟨fun _ _ => rfl, rfl, fun client => ?_⟩
  cases client <;> simp [evaluateDesignPath]

/-- Witness for C10: the no-client configuration evaluated concretely. -/
theorem c10_no_heuristic_from_evaluate_design_witness :
    evaluate_design jlNone none "https://example.com" = get_fallback_evaluation ∧
    evaluateDesignPath none ≠ StrategyPath.heuristic :=
  ⟨c10_no_heuristic_from_evaluate_design.1 jlNone "https://example.com",
   c10_no_heuristic_from_evaluate_design.2.2 none⟩
